import Mathlib

/-!
Verification development for the celestia solar-position library.

The Go package computes planetary/solar positions from a Julian day and a
body selector (an integer; 0..5 selects Mercury..Saturn).  Float64 values
are modelled by real numbers; `math.Mod` by `goMod` (remainder with the
dividend's sign); `math.Atan2` by `atan2`; a Go `(float64, error)` pair by
`ℝ × Option CErr`.  The iterative event solvers carry an explicit fuel
argument for their refinement loops.
-/

open Real

noncomputable section

namespace Celestia

/-- `julian.J2000`, the J2000 epoch as a Julian day. -/
def J2000 : ℝ := 2451545.0

/-- The Go package's single error value `ErrInvalidEnum`. -/
inductive CErr where
  | invalidEnum
  deriving DecidableEq

/-- Truncation toward zero, as used by Go's `math.Mod`. -/
def goTrunc (t : ℝ) : ℝ := if t < 0 then ((⌈t⌉ : ℤ) : ℝ) else ((⌊t⌋ : ℤ) : ℝ)

/-- Go's `math.Mod x y`: the remainder `x - y*trunc(x/y)`, whose sign
follows the dividend `x`. -/
def goMod (x y : ℝ) : ℝ := x - y * goTrunc (x / y)

/-- Go's `math.Atan2 y x` over the reals (signed zeros do not exist in `ℝ`,
so the zero rows of Go's specification collapse). -/
def atan2 (y x : ℝ) : ℝ :=
  if 0 < x then Real.arctan (y / x)
  else if x < 0 then
    if 0 ≤ y then Real.arctan (y / x) + Real.pi else Real.arctan (y / x) - Real.pi
  else
    if 0 < y then Real.pi / 2 else if y < 0 then -(Real.pi / 2) else 0

/-- Degrees-to-radians factor `RAD = π/180` from the source. -/
def RAD : ℝ := Real.pi / 180

/-- Radians-to-degrees factor `DEG = 180/π` from the source. -/
def DEG : ℝ := 180 / Real.pi

-- MeanAnomaly constants.
def M0Mercury : ℝ := 174.7948
def M1Mercury : ℝ := 4.09233445
def M0Venus : ℝ := 50.4161
def M1Venus : ℝ := 1.60213034
def M0Earth : ℝ := 357.5291
def M1Earth : ℝ := 0.98560028
def M0Mars : ℝ := 19.3730
def M1Mars : ℝ := 0.52402068
def M0Jupiter : ℝ := 20.0202
def M1Jupiter : ℝ := 0.08308529
def M0Saturn : ℝ := 317.0207
def M1Saturn : ℝ := 0.03344414

-- ObliquityEcliptic constants.
def EMercury : ℝ := 0.0351
def EVenus : ℝ := 2.6376
def EEarth : ℝ := 23.4393
def EMars : ℝ := 25.1918
def EJupiter : ℝ := 3.1189
def ESaturn : ℝ := 26.7285

-- PerihelionLongitude constants.
def PMercury : ℝ := 230.3265
def PVenus : ℝ := 73.7576
def PEarth : ℝ := 102.9373
def PMars : ℝ := 71.0041
def PJupiter : ℝ := 237.1015
def PSaturn : ℝ := 99.4587

-- EquationOfCenter constants.
def C1Mercury : ℝ := 23.4400
def C2Mercury : ℝ := 2.9818
def C3Mercury : ℝ := 0.5255
def C4Mercury : ℝ := 0.1058
def C5Mercury : ℝ := 0.0241
def C6Mercury : ℝ := 0.0055
def C1Venus : ℝ := 0.7758
def C2Venus : ℝ := 0.0033
def C3Venus : ℝ := 0.0000
def C4Venus : ℝ := 0.0000
def C5Venus : ℝ := 0.0000
def C6Venus : ℝ := 0.0000
def C1Earth : ℝ := 1.9148
def C2Earth : ℝ := 0.0200
def C3Earth : ℝ := 0.0003
def C4Earth : ℝ := 0.0000
def C5Earth : ℝ := 0.0000
def C6Earth : ℝ := 0.0000
def C1Mars : ℝ := 10.6912
def C2Mars : ℝ := 0.6228
def C3Mars : ℝ := 0.0503
def C4Mars : ℝ := 0.0046
def C5Mars : ℝ := 0.0005
def C6Mars : ℝ := 0.0000
def C1Jupiter : ℝ := 5.5549
def C2Jupiter : ℝ := 0.1683
def C3Jupiter : ℝ := 0.0071
def C4Jupiter : ℝ := 0.0003
def C5Jupiter : ℝ := 0.0000
def C6Jupiter : ℝ := 0.0000
def C1Saturn : ℝ := 6.3585
def C2Saturn : ℝ := 0.2204
def C3Saturn : ℝ := 0.0106
def C4Saturn : ℝ := 0.0006
def C5Saturn : ℝ := 0.0000
def C6Saturn : ℝ := 0.0000

-- SiderealTime constants.
def T0Mercury : ℝ := 132.3282
def T1Mercury : ℝ := 6.1385025
def T0Venus : ℝ := 104.9067
def T1Venus : ℝ := -1.4813688
def T0Earth : ℝ := 280.1470
def T1Earth : ℝ := 360.9856235
def T0Mars : ℝ := 313.3827
def T1Mars : ℝ := 350.89198226
def T0Jupiter : ℝ := 145.9722
def T1Jupiter : ℝ := 870.5360000
def T0Saturn : ℝ := 174.3508
def T1Saturn : ℝ := 810.7939024

-- Sunrise/Sunset horizon elevation constants.
def h_0Mercury : ℝ := -0.69
def h_0Venus : ℝ := -0.37
def h_0Earth : ℝ := -0.83
def h_0Mars : ℝ := -0.17
def h_0Jupiter : ℝ := -0.05
def h_0Saturn : ℝ := -0.03

/-- `normalize90` from the source: a single conditional shift by 360. -/
def normalize90 (angle : ℝ) : ℝ :=
  if angle > 180 then angle - 360
  else if angle < -180 then angle + 360
  else angle

/-- `MeanAnomaly` from the source: per-body linear model reduced with
`math.Mod` by 360; invalid bodies yield the zero value and the error. -/
def MeanAnomaly (jd : ℝ) (p : ℤ) : ℝ × Option CErr :=
  if p = 0 then (goMod (M0Mercury + M1Mercury * (jd - J2000)) 360, none)
  else if p = 1 then (goMod (M0Venus + M1Venus * (jd - J2000)) 360, none)
  else if p = 2 then (goMod (M0Earth + M1Earth * (jd - J2000)) 360, none)
  else if p = 3 then (goMod (M0Mars + M1Mars * (jd - J2000)) 360, none)
  else if p = 4 then (goMod (M0Jupiter + M1Jupiter * (jd - J2000)) 360, none)
  else if p = 5 then (goMod (M0Saturn + M1Saturn * (jd - J2000)) 360, none)
  else (0, some CErr.invalidEnum)

/-- `ObliquityEcliptic` from the source: table lookup. -/
def ObliquityEcliptic (p : ℤ) : ℝ × Option CErr :=
  if p = 0 then (EMercury, none)
  else if p = 1 then (EVenus, none)
  else if p = 2 then (EEarth, none)
  else if p = 3 then (EMars, none)
  else if p = 4 then (EJupiter, none)
  else if p = 5 then (ESaturn, none)
  else (0, some CErr.invalidEnum)

/-- `PerihelionLongitude` from the source: table lookup. -/
def PerihelionLongitude (p : ℤ) : ℝ × Option CErr :=
  if p = 0 then (PMercury, none)
  else if p = 1 then (PVenus, none)
  else if p = 2 then (PEarth, none)
  else if p = 3 then (PMars, none)
  else if p = 4 then (PJupiter, none)
  else if p = 5 then (PSaturn, none)
  else (0, some CErr.invalidEnum)

/-- The local closure `calc` inside `EquationOfCenter`. -/
def ecCalc (c1 c2 c3 c4 c5 c6 m : ℝ) : ℝ :=
  c1 * Real.sin m + c2 * Real.sin (2 * m) + c3 * Real.sin (3 * m) +
    c4 * Real.sin (4 * m) + c5 * Real.sin (5 * m) + c6 * Real.sin (6 * m)

/-- `EquationOfCenter` from the source: Fourier series in the mean anomaly
(in radians); errors from `MeanAnomaly` propagate. -/
def EquationOfCenter (jd : ℝ) (p : ℤ) : ℝ × Option CErr :=
  match MeanAnomaly jd p with
  | (_, some e) => (0, some e)
  | (M, none) =>
    if p = 0 then
      (ecCalc C1Mercury C2Mercury C3Mercury C4Mercury C5Mercury C6Mercury (M * RAD), none)
    else if p = 1 then
      (ecCalc C1Venus C2Venus C3Venus C4Venus C5Venus C6Venus (M * RAD), none)
    else if p = 2 then
      (ecCalc C1Earth C2Earth C3Earth C4Earth C5Earth C6Earth (M * RAD), none)
    else if p = 3 then
      (ecCalc C1Mars C2Mars C3Mars C4Mars C5Mars C6Mars (M * RAD), none)
    else if p = 4 then
      (ecCalc C1Jupiter C2Jupiter C3Jupiter C4Jupiter C5Jupiter C6Jupiter (M * RAD), none)
    else if p = 5 then
      (ecCalc C1Saturn C2Saturn C3Saturn C4Saturn C5Saturn C6Saturn (M * RAD), none)
    else (0, some CErr.invalidEnum)

/-- `TrueAnomaly` from the source: mean anomaly plus equation of center. -/
def TrueAnomaly (jd : ℝ) (p : ℤ) : ℝ × Option CErr :=
  match MeanAnomaly jd p with
  | (_, some e) => (0, some e)
  | (M, none) =>
    match EquationOfCenter jd p with
    | (_, some e) => (0, some e)
    | (C, none) => (M + C, none)

/-- The source's loop `for l > 360 { l = math.Mod(l, 360) }`.  When the
guard holds, `goMod l 360` lies in `[0, 360)` (lemma `goMod_nonneg_lt`), so
the loop body executes at most once and the loop equals this conditional
(lemma `wrapGt360_wrapGt360`). -/
def wrapGt360 (x : ℝ) : ℝ := if x > 360 then goMod x 360 else x

/-- `EclipticLongitude` from the source: `L = M + w + 180`, then `L + C`
reduced by the `wrapGt360` loop. -/
def EclipticLongitude (jd : ℝ) (p : ℤ) : ℝ × Option CErr :=
  match MeanAnomaly jd p with
  | (_, some e) => (0, some e)
  | (M, none) =>
    match PerihelionLongitude p with
    | (_, some e) => (0, some e)
    | (w, none) =>
      match EquationOfCenter jd p with
      | (_, some e) => (0, some e)
      | (C, none) =>
        let L := M + w + 180
        (wrapGt360 (L + C), none)

/-- `RightAscension` from the source. -/
def RightAscension (jd : ℝ) (p : ℤ) : ℝ × Option CErr :=
  match EclipticLongitude jd p with
  | (_, some e) => (0, some e)
  | (l, none) =>
    match ObliquityEcliptic p with
    | (_, some e) => (0, some e)
    | (e, none) =>
      (atan2 (Real.sin (l * RAD) * Real.cos (e * RAD)) (Real.cos (l * RAD)) * DEG, none)

/-- `Declination` from the source.  Note: the source applies `math.Atan`
(not `math.Asin`) to `sin(l·RAD)·sin(e·RAD)`. -/
def Declination (jd : ℝ) (p : ℤ) : ℝ × Option CErr :=
  match EclipticLongitude jd p with
  | (_, some e) => (0, some e)
  | (l, none) =>
    match ObliquityEcliptic p with
    | (_, some e) => (0, some e)
    | (e, none) =>
      (Real.arctan (Real.sin (l * RAD) * Real.sin (e * RAD)) * DEG, none)

/-- `SiderealTime` from the source: per-body linear model minus longitude,
then the `for theta > 360 { theta = math.Mod(theta, 360) }` loop (the loop
also runs, vacuously, in the error case where `theta = 0`). -/
def SiderealTime (jd : ℝ) (p : ℤ) (lon : ℝ) : ℝ × Option CErr :=
  let te : ℝ × Option CErr :=
    if p = 0 then (T0Mercury + T1Mercury * (jd - J2000) - lon, none)
    else if p = 1 then (T0Venus + T1Venus * (jd - J2000) - lon, none)
    else if p = 2 then (T0Earth + T1Earth * (jd - J2000) - lon, none)
    else if p = 3 then (T0Mars + T1Mars * (jd - J2000) - lon, none)
    else if p = 4 then (T0Jupiter + T1Jupiter * (jd - J2000) - lon, none)
    else if p = 5 then (T0Saturn + T1Saturn * (jd - J2000) - lon, none)
    else (0, some CErr.invalidEnum)
  (wrapGt360 te.1, te.2)

/-- `HourAngle` from the source: sidereal time minus right ascension. -/
def HourAngle (jd : ℝ) (p : ℤ) (lon : ℝ) : ℝ × Option CErr :=
  match SiderealTime jd p lon with
  | (_, some e) => (0, some e)
  | (theta, none) =>
    match RightAscension jd p with
    | (_, some e) => (0, some e)
    | (a, none) => (theta - a, none)

/-- `Azimuth` from the source. -/
def Azimuth (jd : ℝ) (p : ℤ) (lat lon : ℝ) : ℝ × Option CErr :=
  match Declination jd p with
  | (_, some e) => (0, some e)
  | (d, none) =>
    match HourAngle jd p lon with
    | (_, some e) => (0, some e)
    | (H, none) =>
      (atan2 (Real.sin (H * RAD))
        (Real.cos (H * RAD) * Real.sin (lat * RAD) -
          Real.tan (d * RAD) * Real.cos (lat * RAD)) * DEG, none)

/-- `Altitude` from the source. -/
def Altitude (jd : ℝ) (p : ℤ) (lat lon : ℝ) : ℝ × Option CErr :=
  match Declination jd p with
  | (_, some e) => (0, some e)
  | (d, none) =>
    match HourAngle jd p lon with
    | (_, some e) => (0, some e)
    | (H, none) =>
      (Real.arcsin (Real.sin (lat * RAD) * Real.sin (d * RAD) +
        Real.cos (lat * RAD) * Real.cos (d * RAD) * Real.cos (H * RAD)) * DEG, none)

/-- Model of the `fmt.Sprintf` rendering with six fractional digits, used
only inside the solvers' convergence tests (which no claim depends on):
two reals are considered equal when they round to the same multiple of
`10^-6`. -/
def fmt6 (x : ℝ) : ℤ := ⌊x * 1000000 + 1 / 2⌋

/-- The rounding applied to `n_x` inside `Transit`: ceiling when the
fractional part is at least one half, floor otherwise. -/
def transitRound (x : ℝ) : ℝ :=
  if x - ((⌊x⌋ : ℤ) : ℝ) ≥ 0.5 then ((⌈x⌉ : ℤ) : ℝ) else ((⌊x⌋ : ℤ) : ℝ)

/-- The per-body `(J0, J1, J2, J3)` coefficients computed by the `switch`
inside `Transit`; `none` on the `default` branch. -/
def transitCoeffs (p : ℤ) : Option (ℝ × ℝ × ℝ × ℝ) :=
  if p = 0 then
    let J3 := 360 / (T1Mercury - M1Mercury)
    some ((M0Mercury + PMercury + 180 - T0Mercury) * (J3 / 360),
      C1Mercury * (J3 / 360), 0, J3)
  else if p = 1 then
    let J3 := 360 / (T1Venus - M1Venus)
    some ((M0Venus + PVenus + 180 - T0Venus) * (J3 / 360),
      C1Venus * (J3 / 360), -0.0304 * (J3 / 360), J3)
  else if p = 2 then
    let J3 := 360 / (T1Earth - M1Earth)
    some ((M0Earth + PEarth + 180 - T0Earth) * (J3 / 360),
      C1Earth * (J3 / 360), -2.4657 * (J3 / 360), J3)
  else if p = 3 then
    let J3 := 360 / (T1Mars - M1Mars)
    some ((M0Mars + PMars + 180 - T0Mars) * (J3 / 360),
      C1Mars * (J3 / 360), -2.8608 * (J3 / 360), J3)
  else if p = 4 then
    let J3 := 360 / (T1Jupiter - M1Jupiter)
    some ((M0Jupiter + PJupiter + 180 - T0Jupiter) * (J3 / 360),
      C1Jupiter * (J3 / 360), -2.8608 * (J3 / 360), J3)
  else if p = 5 then
    let J3 := 360 / (T1Saturn - M1Saturn)
    some ((M0Saturn + PSaturn + 180 - T0Saturn) * (J3 / 360),
      C1Saturn * (J3 / 360), -2.8608 * (J3 / 360), J3)
  else none

/-- The refinement loop of `Transit`, with explicit fuel; `s` is the
rendered previous value (`J_str` in the source). -/
def transitLoop (p : ℤ) (lon J3 : ℝ) : ℕ → ℝ → ℤ → ℝ × Option CErr
  | 0, J, _ => (J, none)
  | n + 1, J, s =>
    match HourAngle J p lon with
    | (_, some e) => (0, some e)
    | (H, none) =>
      let J' := J - (H / 360) * J3
      if fmt6 J' = s then (J', none)
      else transitLoop p lon J3 n J' (fmt6 J')

/-- `Transit` from the source, with fuel for the refinement loop. -/
def Transit (fuel : ℕ) (jd : ℝ) (p : ℤ) (lon : ℝ) : ℝ × Option CErr :=
  match EclipticLongitude jd p with
  | (_, some e) => (0, some e)
  | (l, none) =>
    match transitCoeffs p with
    | none => (0, some CErr.invalidEnum)
    | some (J0, J1, J2, J3) =>
      match MeanAnomaly jd p with
      | (_, some e) => (0, some e)
      | (M, none) =>
        let n_x := (jd - J2000 - J0) / J3 - lon / 360
        let n := transitRound n_x
        let J_transit := jd + J3 * (n - n_x) +
          J1 * Real.sin (M * RAD) + J2 * Real.sin (2 * l * RAD)
        transitLoop p lon J3 fuel J_transit (fmt6 J_transit)

/-- The per-body `(H_rise, J3)` pair computed by the `switch` inside
`Sunrise`; `none` on the `default` branch.  The `acos` argument is written
exactly as in the Go source, where `a / b * c` groups as `(a / b) * c`. -/
def sunriseParams (p : ℤ) (lat d : ℝ) : Option (ℝ × ℝ) :=
  if p = 0 then
    some (Real.arccos ((Real.sin (h_0Mercury * RAD) -
      Real.sin (lat * RAD) * Real.sin (d * RAD)) /
        Real.cos (lat * RAD) * Real.cos (d * RAD)) * DEG,
      360 / (T1Mercury - M1Mercury))
  else if p = 1 then
    some (Real.arccos ((Real.sin (h_0Venus * RAD) -
      Real.sin (lat * RAD) * Real.sin (d * RAD)) /
        Real.cos (lat * RAD) * Real.cos (d * RAD)) * DEG,
      360 / (T1Venus - M1Venus))
  else if p = 2 then
    some (Real.arccos ((Real.sin (h_0Earth * RAD) -
      Real.sin (lat * RAD) * Real.sin (d * RAD)) /
        Real.cos (lat * RAD) * Real.cos (d * RAD)) * DEG,
      360 / (T1Earth - M1Earth))
  else if p = 3 then
    some (Real.arccos ((Real.sin (h_0Mars * RAD) -
      Real.sin (lat * RAD) * Real.sin (d * RAD)) /
        Real.cos (lat * RAD) * Real.cos (d * RAD)) * DEG,
      360 / (T1Mars - M1Mars))
  else if p = 4 then
    some (Real.arccos ((Real.sin (h_0Jupiter * RAD) -
      Real.sin (lat * RAD) * Real.sin (d * RAD)) /
        Real.cos (lat * RAD) * Real.cos (d * RAD)) * DEG,
      360 / (T1Jupiter - M1Jupiter))
  else if p = 5 then
    some (Real.arccos ((Real.sin (h_0Saturn * RAD) -
      Real.sin (lat * RAD) * Real.sin (d * RAD)) /
        Real.cos (lat * RAD) * Real.cos (d * RAD)) * DEG,
      360 / (T1Saturn - M1Saturn))
  else none

/-- The per-body `(H_set, J3)` pair computed by the `switch` inside
`Sunset`; the source duplicates the `Sunrise` expressions verbatim. -/
def sunsetParams (p : ℤ) (lat d : ℝ) : Option (ℝ × ℝ) :=
  if p = 0 then
    some (Real.arccos ((Real.sin (h_0Mercury * RAD) -
      Real.sin (lat * RAD) * Real.sin (d * RAD)) /
        Real.cos (lat * RAD) * Real.cos (d * RAD)) * DEG,
      360 / (T1Mercury - M1Mercury))
  else if p = 1 then
    some (Real.arccos ((Real.sin (h_0Venus * RAD) -
      Real.sin (lat * RAD) * Real.sin (d * RAD)) /
        Real.cos (lat * RAD) * Real.cos (d * RAD)) * DEG,
      360 / (T1Venus - M1Venus))
  else if p = 2 then
    some (Real.arccos ((Real.sin (h_0Earth * RAD) -
      Real.sin (lat * RAD) * Real.sin (d * RAD)) /
        Real.cos (lat * RAD) * Real.cos (d * RAD)) * DEG,
      360 / (T1Earth - M1Earth))
  else if p = 3 then
    some (Real.arccos ((Real.sin (h_0Mars * RAD) -
      Real.sin (lat * RAD) * Real.sin (d * RAD)) /
        Real.cos (lat * RAD) * Real.cos (d * RAD)) * DEG,
      360 / (T1Mars - M1Mars))
  else if p = 4 then
    some (Real.arccos ((Real.sin (h_0Jupiter * RAD) -
      Real.sin (lat * RAD) * Real.sin (d * RAD)) /
        Real.cos (lat * RAD) * Real.cos (d * RAD)) * DEG,
      360 / (T1Jupiter - M1Jupiter))
  else if p = 5 then
    some (Real.arccos ((Real.sin (h_0Saturn * RAD) -
      Real.sin (lat * RAD) * Real.sin (d * RAD)) /
        Real.cos (lat * RAD) * Real.cos (d * RAD)) * DEG,
      360 / (T1Saturn - M1Saturn))
  else none

/-- The refinement loop of `Sunrise`, with explicit fuel. -/
def riseLoop (p : ℤ) (lon H_rise J3 : ℝ) : ℕ → ℝ → ℤ → ℝ × Option CErr
  | 0, J, _ => (J, none)
  | n + 1, J, s =>
    match HourAngle J p lon with
    | (_, some e) => (0, some e)
    | (H0, none) =>
      let H := normalize90 H0
      let J' := J - ((H + H_rise) / 360) * J3
      if fmt6 J' = s then (J', none)
      else riseLoop p lon H_rise J3 n J' (fmt6 J')

/-- The refinement loop of `Sunset`, with explicit fuel (the update uses
`H - H_set`). -/
def setLoop (p : ℤ) (lon H_set J3 : ℝ) : ℕ → ℝ → ℤ → ℝ × Option CErr
  | 0, J, _ => (J, none)
  | n + 1, J, s =>
    match HourAngle J p lon with
    | (_, some e) => (0, some e)
    | (H0, none) =>
      let H := normalize90 H0
      let J' := J - ((H - H_set) / 360) * J3
      if fmt6 J' = s then (J', none)
      else setLoop p lon H_set J3 n J' (fmt6 J')

/-- `Sunrise` from the source, with fuel for both iterative solvers. -/
def Sunrise (fuel : ℕ) (jd : ℝ) (p : ℤ) (lat lon : ℝ) : ℝ × Option CErr :=
  match Declination jd p with
  | (_, some e) => (0, some e)
  | (d, none) =>
    match sunriseParams p lat d with
    | none => (0, some CErr.invalidEnum)
    | some (H_rise, J3) =>
      match Transit fuel jd p lon with
      | (_, some e) => (0, some e)
      | (J_transit, none) =>
        let J_rise := J_transit - (H_rise / 360) * J3
        riseLoop p lon H_rise J3 fuel J_rise (fmt6 J_rise)

/-- `Sunset` from the source, with fuel for both iterative solvers. -/
def Sunset (fuel : ℕ) (jd : ℝ) (p : ℤ) (lat lon : ℝ) : ℝ × Option CErr :=
  match Declination jd p with
  | (_, some e) => (0, some e)
  | (d, none) =>
    match sunsetParams p lat d with
    | none => (0, some CErr.invalidEnum)
    | some (H_set, J3) =>
      match Transit fuel jd p lon with
      | (_, some e) => (0, some e)
      | (J_transit, none) =>
        let J_set := J_transit + (H_set / 360) * J3
        setLoop p lon H_set J3 fuel J_set (fmt6 J_set)

/-- Spec-side selector for the horizon elevation constant of a body. -/
def h_0sel (p : ℤ) : ℝ :=
  if p = 0 then h_0Mercury else if p = 1 then h_0Venus else if p = 2 then h_0Earth
  else if p = 3 then h_0Mars else if p = 4 then h_0Jupiter
  else if p = 5 then h_0Saturn else 0

/-- Spec-side selector for the sidereal-time constant term of a body. -/
def T0sel (p : ℤ) : ℝ :=
  if p = 0 then T0Mercury else if p = 1 then T0Venus else if p = 2 then T0Earth
  else if p = 3 then T0Mars else if p = 4 then T0Jupiter
  else if p = 5 then T0Saturn else 0

/-- Spec-side selector for the sidereal-time rate of a body. -/
def T1sel (p : ℤ) : ℝ :=
  if p = 0 then T1Mercury else if p = 1 then T1Venus else if p = 2 then T1Earth
  else if p = 3 then T1Mars else if p = 4 then T1Jupiter
  else if p = 5 then T1Saturn else 0

/-- Spec-side selector for the mean-anomaly rate of a body. -/
def M1sel (p : ℤ) : ℝ :=
  if p = 0 then M1Mercury else if p = 1 then M1Venus else if p = 2 then M1Earth
  else if p = 3 then M1Mars else if p = 4 then M1Jupiter
  else if p = 5 then M1Saturn else 0

/-- The horizon hour-angle formula as written in the spec's words, with the
grouping spelled out by explicit parentheses: the division binds only to
`cos(lat)` and the `cos(d)` factor multiplies the quotient. -/
def specHorizonHA (h0 lat d : ℝ) : ℝ :=
  Real.arccos (((Real.sin (h0 * RAD) - Real.sin (lat * RAD) * Real.sin (d * RAD)) /
    Real.cos (lat * RAD)) * Real.cos (d * RAD)) * DEG

/-- The reduction described by the spec's words for sidereal time, namely
repeatedly SUBTRACTING 360 while the value is greater than 360 (fuel-indexed;
two steps of fuel suffice for all values below 1080). -/
def specRepeatSub360 : ℕ → ℝ → ℝ
  | 0, x => x
  | n + 1, x => if x > 360 then specRepeatSub360 n (x - 360) else x

lemma goMod_nonneg_lt (x : ℝ) (hx : 0 ≤ x) : 0 ≤ goMod x 360 ∧ goMod x 360 < 360 := by
  have hnot : ¬ (x / 360 < 0) := not_lt.mpr (by positivity)
  have hfl : ((⌊x / 360⌋ : ℤ) : ℝ) ≤ x / 360 := Int.floor_le _
  have hfu : x / 360 < (⌊x / 360⌋ : ℤ) + 1 := Int.lt_floor_add_one _
  unfold goMod goTrunc
  rw [if_neg hnot]
  constructor <;> linarith

lemma goMod_neg_bounds (x : ℝ) (hx : x < 0) : -360 < goMod x 360 ∧ goMod x 360 ≤ 0 := by
  have hneg : x / 360 < 0 := div_neg_of_neg_of_pos hx (by norm_num)
  have hcl : x / 360 ≤ ((⌈x / 360⌉ : ℤ) : ℝ) := Int.le_ceil _
  have hcu : ((⌈x / 360⌉ : ℤ) : ℝ) < x / 360 + 1 := Int.ceil_lt_add_one _
  unfold goMod goTrunc
  rw [if_pos hneg]
  constructor <;> linarith

lemma goMod_bounds (x : ℝ) : -360 < goMod x 360 ∧ goMod x 360 < 360 := by
  rcases le_or_lt 0 x with hx | hx
  · have h := goMod_nonneg_lt x hx
    exact ⟨by linarith [h.1], h.2⟩
  · have h := goMod_neg_bounds x hx
    exact ⟨h.1, by linarith [h.2]⟩

lemma goMod_eq_sub (x : ℝ) (k : ℤ) (h0 : 0 ≤ x) (h1 : (k : ℝ) ≤ x / 360)
    (h2 : x / 360 < (k : ℝ) + 1) : goMod x 360 = x - 360 * k := by
  have hnot : ¬ (x / 360 < 0) := not_lt.mpr (by positivity)
  have hk : ⌊x / 360⌋ = k := Int.floor_eq_iff.mpr ⟨h1, by exact_mod_cast h2⟩
  simp [goMod, goTrunc, hnot, hk]

lemma wrapGt360_wrapGt360 (x : ℝ) : wrapGt360 (wrapGt360 x) = wrapGt360 x := by
  by_cases h : x > 360
  · have h2 : ¬ (goMod x 360 > 360) := by
      have := (goMod_nonneg_lt x (by linarith)).2
      linarith
    simp [wrapGt360, h, h2]
  · simp [wrapGt360, h]

lemma atan2_le_pi (y x : ℝ) : atan2 y x ≤ Real.pi := by
  unfold atan2
  split_ifs with h1 h2 h3 h4 h5
  · linarith [Real.arctan_lt_pi_div_two (y / x), Real.pi_pos]
  · have hyx : y / x ≤ 0 := div_nonpos_iff.mpr (Or.inl ⟨h3, le_of_lt h2⟩)
    have harc : Real.arctan (y / x) ≤ 0 := by
      have := Real.arctan_strictMono.monotone hyx
      simpa [Real.arctan_zero] using this
    linarith
  · linarith [Real.arctan_lt_pi_div_two (y / x), Real.pi_pos]
  · linarith [Real.pi_pos]
  · linarith [Real.pi_pos]
  · linarith [Real.pi_pos]

lemma neg_pi_lt_atan2 (y x : ℝ) : -Real.pi < atan2 y x := by
  unfold atan2
  split_ifs with h1 h2 h3 h4 h5
  · linarith [Real.neg_pi_div_two_lt_arctan (y / x), Real.pi_pos]
  · linarith [Real.neg_pi_div_two_lt_arctan (y / x), Real.pi_pos]
  · have hyx : 0 < y / x := div_pos_iff.mpr (Or.inr ⟨not_le.mp h3, h2⟩)
    have harc : 0 < Real.arctan (y / x) := by
      have := Real.arctan_strictMono hyx
      simpa [Real.arctan_zero] using this
    linarith
  · linarith [Real.pi_pos]
  · linarith [Real.pi_pos]
  · linarith [Real.pi_pos]

lemma DEG_pos : 0 < DEG := by
  unfold DEG
  positivity

lemma pi_mul_DEG : Real.pi * DEG = 180 := by
  unfold DEG
  field_simp

lemma mul_sin_bounds (c t : ℝ) (hc : 0 ≤ c) :
    -c ≤ c * Real.sin t ∧ c * Real.sin t ≤ c :=
  ⟨by nlinarith [Real.neg_one_le_sin t], by nlinarith [Real.sin_le_one t]⟩

lemma ecCalc_bounds (c1 c2 c3 c4 c5 c6 m : ℝ) (h1 : 0 ≤ c1) (h2 : 0 ≤ c2)
    (h3 : 0 ≤ c3) (h4 : 0 ≤ c4) (h5 : 0 ≤ c5) (h6 : 0 ≤ c6) :
    -(c1 + c2 + c3 + c4 + c5 + c6) ≤ ecCalc c1 c2 c3 c4 c5 c6 m ∧
      ecCalc c1 c2 c3 c4 c5 c6 m ≤ c1 + c2 + c3 + c4 + c5 + c6 := by
  obtain ⟨a1, b1⟩ := mul_sin_bounds c1 m h1
  obtain ⟨a2, b2⟩ := mul_sin_bounds c2 (2 * m) h2
  obtain ⟨a3, b3⟩ := mul_sin_bounds c3 (3 * m) h3
  obtain ⟨a4, b4⟩ := mul_sin_bounds c4 (4 * m) h4
  obtain ⟨a5, b5⟩ := mul_sin_bounds c5 (5 * m) h5
  obtain ⟨a6, b6⟩ := mul_sin_bounds c6 (6 * m) h6
  unfold ecCalc
  constructor <;> linarith

lemma MeanAnomaly_valid_bounds (jd : ℝ) (p : ℤ) (h0 : 0 ≤ p) (h5 : p ≤ 5) :
    -360 < (MeanAnomaly jd p).1 ∧ (MeanAnomaly jd p).1 < 360 := by
  interval_cases p <;>
    · simp only [MeanAnomaly]
      norm_num
      exact goMod_bounds _

lemma EclipticLongitude_valid (jd : ℝ) (p : ℤ) (h0 : 0 ≤ p) (h5 : p ≤ 5) :
    EclipticLongitude jd p =
      (wrapGt360 ((MeanAnomaly jd p).1 + (PerihelionLongitude p).1 + 180 +
        (EquationOfCenter jd p).1), none) := by
  interval_cases p <;>
    simp [EclipticLongitude, MeanAnomaly, PerihelionLongitude, EquationOfCenter]

lemma SiderealTime_valid (jd : ℝ) (p : ℤ) (lon : ℝ) (h0 : 0 ≤ p) (h5 : p ≤ 5) :
    SiderealTime jd p lon =
      (wrapGt360 (T0sel p + T1sel p * (jd - J2000) - lon), none) := by
  interval_cases p <;> simp [SiderealTime, T0sel, T1sel]

lemma Declination_valid (jd : ℝ) (p : ℤ) (h0 : 0 ≤ p) (h5 : p ≤ 5) :
    Declination jd p =
      (Real.arctan (Real.sin ((EclipticLongitude jd p).1 * RAD) *
        Real.sin ((ObliquityEcliptic p).1 * RAD)) * DEG, none) := by
  interval_cases p <;>
    simp [Declination, EclipticLongitude, ObliquityEcliptic, MeanAnomaly,
      PerihelionLongitude, EquationOfCenter]

lemma atan2_DEG_bounds (y x : ℝ) : -180 < atan2 y x * DEG ∧ atan2 y x * DEG ≤ 180 := by
  have h1 := neg_pi_lt_atan2 y x
  have h2 := atan2_le_pi y x
  have h3 := DEG_pos
  have h4 := pi_mul_DEG
  constructor
  · have h5 := mul_lt_mul_of_pos_right h1 h3
    nlinarith
  · have h6 := mul_le_mul_of_nonneg_right h2 (le_of_lt h3)
    linarith

lemma arctan_DEG_bounds (t : ℝ) : -90 < Real.arctan t * DEG ∧ Real.arctan t * DEG < 90 := by
  have h1 := Real.neg_pi_div_two_lt_arctan t
  have h2 := Real.arctan_lt_pi_div_two t
  have h3 := DEG_pos
  have h4 := pi_mul_DEG
  constructor
  · have h5 := mul_lt_mul_of_pos_right h1 h3
    nlinarith
  · have h5 := mul_lt_mul_of_pos_right h2 h3
    nlinarith

lemma RightAscension_valid_bounds (jd : ℝ) (p : ℤ) (h0 : 0 ≤ p) (h5 : p ≤ 5) :
    -180 < (RightAscension jd p).1 ∧ (RightAscension jd p).1 ≤ 180 ∧
      (RightAscension jd p).2 = none := by
  interval_cases p <;>
    · simp only [RightAscension, EclipticLongitude, MeanAnomaly, PerihelionLongitude,
        EquationOfCenter, ObliquityEcliptic]
      norm_num
      exact atan2_DEG_bounds _ _

lemma EquationOfCenter_abs_le (jd : ℝ) (p : ℤ) (h0 : 0 ≤ p) (h5 : p ≤ 5) :
    |(EquationOfCenter jd p).1| ≤ 27.0827 := by
  interval_cases p
  · simp only [EquationOfCenter, MeanAnomaly]
    norm_num
    rw [abs_le]
    have h := ecCalc_bounds C1Mercury C2Mercury C3Mercury C4Mercury C5Mercury C6Mercury
      (goMod (M0Mercury + M1Mercury * (jd - J2000)) 360 * RAD)
      (by norm_num [C1Mercury]) (by norm_num [C2Mercury]) (by norm_num [C3Mercury])
      (by norm_num [C4Mercury]) (by norm_num [C5Mercury]) (by norm_num [C6Mercury])
    have hsum : C1Mercury + C2Mercury + C3Mercury + C4Mercury + C5Mercury + C6Mercury
        = 27.0827 := by
      norm_num [C1Mercury, C2Mercury, C3Mercury, C4Mercury, C5Mercury, C6Mercury]
    constructor <;> linarith [h.1, h.2]
  · simp only [EquationOfCenter, MeanAnomaly]
    norm_num
    rw [abs_le]
    have h := ecCalc_bounds C1Venus C2Venus C3Venus C4Venus C5Venus C6Venus
      (goMod (M0Venus + M1Venus * (jd - J2000)) 360 * RAD)
      (by norm_num [C1Venus]) (by norm_num [C2Venus]) (by norm_num [C3Venus])
      (by norm_num [C4Venus]) (by norm_num [C5Venus]) (by norm_num [C6Venus])
    have hsum : C1Venus + C2Venus + C3Venus + C4Venus + C5Venus + C6Venus = 0.7791 := by
      norm_num [C1Venus, C2Venus, C3Venus, C4Venus, C5Venus, C6Venus]
    constructor <;> linarith [h.1, h.2]
  · simp only [EquationOfCenter, MeanAnomaly]
    norm_num
    rw [abs_le]
    have h := ecCalc_bounds C1Earth C2Earth C3Earth C4Earth C5Earth C6Earth
      (goMod (M0Earth + M1Earth * (jd - J2000)) 360 * RAD)
      (by norm_num [C1Earth]) (by norm_num [C2Earth]) (by norm_num [C3Earth])
      (by norm_num [C4Earth]) (by norm_num [C5Earth]) (by norm_num [C6Earth])
    have hsum : C1Earth + C2Earth + C3Earth + C4Earth + C5Earth + C6Earth = 1.9351 := by
      norm_num [C1Earth, C2Earth, C3Earth, C4Earth, C5Earth, C6Earth]
    constructor <;> linarith [h.1, h.2]
  · simp only [EquationOfCenter, MeanAnomaly]
    norm_num
    rw [abs_le]
    have h := ecCalc_bounds C1Mars C2Mars C3Mars C4Mars C5Mars C6Mars
      (goMod (M0Mars + M1Mars * (jd - J2000)) 360 * RAD)
      (by norm_num [C1Mars]) (by norm_num [C2Mars]) (by norm_num [C3Mars])
      (by norm_num [C4Mars]) (by norm_num [C5Mars]) (by norm_num [C6Mars])
    have hsum : C1Mars + C2Mars + C3Mars + C4Mars + C5Mars + C6Mars = 11.3694 := by
      norm_num [C1Mars, C2Mars, C3Mars, C4Mars, C5Mars, C6Mars]
    constructor <;> linarith [h.1, h.2]
  · simp only [EquationOfCenter, MeanAnomaly]
    norm_num
    rw [abs_le]
    have h := ecCalc_bounds C1Jupiter C2Jupiter C3Jupiter C4Jupiter C5Jupiter C6Jupiter
      (goMod (M0Jupiter + M1Jupiter * (jd - J2000)) 360 * RAD)
      (by norm_num [C1Jupiter]) (by norm_num [C2Jupiter]) (by norm_num [C3Jupiter])
      (by norm_num [C4Jupiter]) (by norm_num [C5Jupiter]) (by norm_num [C6Jupiter])
    have hsum : C1Jupiter + C2Jupiter + C3Jupiter + C4Jupiter + C5Jupiter + C6Jupiter
        = 5.7306 := by
      norm_num [C1Jupiter, C2Jupiter, C3Jupiter, C4Jupiter, C5Jupiter, C6Jupiter]
    constructor <;> linarith [h.1, h.2]
  · simp only [EquationOfCenter, MeanAnomaly]
    norm_num
    rw [abs_le]
    have h := ecCalc_bounds C1Saturn C2Saturn C3Saturn C4Saturn C5Saturn C6Saturn
      (goMod (M0Saturn + M1Saturn * (jd - J2000)) 360 * RAD)
      (by norm_num [C1Saturn]) (by norm_num [C2Saturn]) (by norm_num [C3Saturn])
      (by norm_num [C4Saturn]) (by norm_num [C5Saturn]) (by norm_num [C6Saturn])
    have hsum : C1Saturn + C2Saturn + C3Saturn + C4Saturn + C5Saturn + C6Saturn
        = 6.5901 := by
      norm_num [C1Saturn, C2Saturn, C3Saturn, C4Saturn, C5Saturn, C6Saturn]
    constructor <;> linarith [h.1, h.2]

lemma EquationOfCenter_earth_abs_le (jd : ℝ) : |(EquationOfCenter jd 2).1| ≤ 1.9351 := by
  simp only [EquationOfCenter, MeanAnomaly]
  norm_num
  rw [abs_le]
  have h := ecCalc_bounds C1Earth C2Earth C3Earth C4Earth C5Earth C6Earth
    (goMod (M0Earth + M1Earth * (jd - J2000)) 360 * RAD)
    (by norm_num [C1Earth]) (by norm_num [C2Earth]) (by norm_num [C3Earth])
    (by norm_num [C4Earth]) (by norm_num [C5Earth]) (by norm_num [C6Earth])
  have hsum : C1Earth + C2Earth + C3Earth + C4Earth + C5Earth + C6Earth = 1.9351 := by
    norm_num [C1Earth, C2Earth, C3Earth, C4Earth, C5Earth, C6Earth]
  constructor <;> linarith [h.1, h.2]

lemma PerihelionLongitude_ge (p : ℤ) (h0 : 0 ≤ p) (h5 : p ≤ 5) :
    71.0041 ≤ (PerihelionLongitude p).1 := by
  interval_cases p <;>
    norm_num [PerihelionLongitude, PMercury, PVenus, PEarth, PMars, PJupiter, PSaturn]

lemma meanAnomaly_nonneg_aux (A B t : ℝ) (hA : 0 ≤ A) (hB : 0 ≤ B) (ht : 0 ≤ t) :
    0 ≤ goMod (A + B * t) 360 ∧ goMod (A + B * t) 360 < 360 :=
  goMod_nonneg_lt _ (by nlinarith)

/-- C9: for every Julian day `jd` and valid body `p` in 0..5, `TrueAnomaly`
returns exactly the sum of `MeanAnomaly` and `EquationOfCenter`, with no
additional rounding or wrapping applied to the sum (and no error). -/
theorem C9_trueAnomaly_is_sum (jd : ℝ) (p : ℤ) (h0 : 0 ≤ p) (h5 : p ≤ 5) :
    (TrueAnomaly jd p).1 = (MeanAnomaly jd p).1 + (EquationOfCenter jd p).1 ∧
      (TrueAnomaly jd p).2 = none := by
  interval_cases p <;> simp [TrueAnomaly, MeanAnomaly, EquationOfCenter]

/-- Witness for C9 at `jd = 2453097`, `p = 2` (Earth). -/
theorem C9_trueAnomaly_is_sum_witness :
    (TrueAnomaly 2453097 2).1 = (MeanAnomaly 2453097 2).1 + (EquationOfCenter 2453097 2).1 ∧
      (TrueAnomaly 2453097 2).2 = none :=
  C9_trueAnomaly_is_sum 2453097 2 (by norm_num) (by norm_num)

/-- C10: for every Julian day and valid body in 0..5, the mean anomaly lies
in the open interval (-360, 360): the `math.Mod` remainder has magnitude
strictly below the modulus. -/
theorem C10_meanAnomaly_open_interval (jd : ℝ) (p : ℤ) (h0 : 0 ≤ p) (h5 : p ≤ 5) :
    -360 < (MeanAnomaly jd p).1 ∧ (MeanAnomaly jd p).1 < 360 :=
  MeanAnomaly_valid_bounds jd p h0 h5

/-- Witness for C10 at `jd = 2453097`, `p = 2` (Earth). -/
theorem C10_meanAnomaly_open_interval_witness :
    -360 < (MeanAnomaly 2453097 2).1 ∧ (MeanAnomaly 2453097 2).1 < 360 :=
  C10_meanAnomaly_open_interval 2453097 2 (by norm_num) (by norm_num)

/-- C2 counterexample: 1000 days before the J2000 epoch, the Earth mean
anomaly returned by the code is negative (it equals -268.07118), so the
claimed range [0, 360) for arbitrary Julian days fails. -/
theorem C2_counterexample : (MeanAnomaly 2450545 2).1 < 0 := by
  have hx : M0Earth + M1Earth * ((2450545 : ℝ) - J2000) = -628.07118 := by
    norm_num [M0Earth, M1Earth, J2000]
  have hneg : (-628.07118 : ℝ) / 360 < 0 := by norm_num
  have hc : ⌈(-628.07118 : ℝ) / 360⌉ = -1 := by
    rw [Int.ceil_eq_iff]
    constructor <;> norm_num
  have hg : goMod (-628.07118 : ℝ) 360 = -268.07118 := by
    rw [goMod, goTrunc, if_pos hneg, hc]
    norm_num
  have : (MeanAnomaly 2450545 2).1 = goMod (M0Earth + M1Earth * ((2450545 : ℝ) - J2000)) 360 := by
    simp [MeanAnomaly]
  rw [this, hx, hg]
  norm_num

/-- C2 amended: for every Julian day at or after the J2000 epoch and every
valid body in 0..5, `MeanAnomaly` lies in [0, 360).  (For earlier days the
result can be negative; it always lies in (-360, 360).) -/
theorem C2_meanAnomaly_range (jd : ℝ) (p : ℤ) (hjd : J2000 ≤ jd) (h0 : 0 ≤ p) (h5 : p ≤ 5) :
    0 ≤ (MeanAnomaly jd p).1 ∧ (MeanAnomaly jd p).1 < 360 := by
  have hd : 0 ≤ jd - J2000 := by linarith
  interval_cases p <;>
    · simp only [MeanAnomaly]
      norm_num
      exact meanAnomaly_nonneg_aux _ _ _
        (by norm_num [M0Mercury, M0Venus, M0Earth, M0Mars, M0Jupiter, M0Saturn])
        (by norm_num [M1Mercury, M1Venus, M1Earth, M1Mars, M1Jupiter, M1Saturn]) hd

/-- Witness for the amended C2 at `jd = 2453097 ≥ J2000`, `p = 2`. -/
theorem C2_meanAnomaly_range_witness :
    0 ≤ (MeanAnomaly 2453097 2).1 ∧ (MeanAnomaly 2453097 2).1 < 360 :=
  C2_meanAnomaly_range 2453097 2 (by norm_num [J2000]) (by norm_num) (by norm_num)

/-- C4: for every integer body index outside 0..5 and arbitrary remaining
arguments (and any loop fuel), every public operation returns the zero
value together with the `InvalidBody` error, unwrapped. -/
theorem C4_invalid_body (p : ℤ) (hp : p < 0 ∨ 5 < p) (jd lat lon : ℝ) (fuel : ℕ) :
    MeanAnomaly jd p = (0, some CErr.invalidEnum) ∧
    ObliquityEcliptic p = (0, some CErr.invalidEnum) ∧
    PerihelionLongitude p = (0, some CErr.invalidEnum) ∧
    EquationOfCenter jd p = (0, some CErr.invalidEnum) ∧
    TrueAnomaly jd p = (0, some CErr.invalidEnum) ∧
    EclipticLongitude jd p = (0, some CErr.invalidEnum) ∧
    RightAscension jd p = (0, some CErr.invalidEnum) ∧
    Declination jd p = (0, some CErr.invalidEnum) ∧
    SiderealTime jd p lon = (0, some CErr.invalidEnum) ∧
    HourAngle jd p lon = (0, some CErr.invalidEnum) ∧
    Azimuth jd p lat lon = (0, some CErr.invalidEnum) ∧
    Altitude jd p lat lon = (0, some CErr.invalidEnum) ∧
    Transit fuel jd p lon = (0, some CErr.invalidEnum) ∧
    Sunrise fuel jd p lat lon = (0, some CErr.invalidEnum) ∧
    Sunset fuel jd p lat lon = (0, some CErr.invalidEnum) := by
  have e0 : p ≠ 0 := by omega
  have e1 : p ≠ 1 := by omega
  have e2 : p ≠ 2 := by omega
  have e3 : p ≠ 3 := by omega
  have e4 : p ≠ 4 := by omega
  have e5 : p ≠ 5 := by omega
  have hM : MeanAnomaly jd p = (0, some CErr.invalidEnum) := by
    simp [MeanAnomaly, e0, e1, e2, e3, e4, e5]
  have hOb : ObliquityEcliptic p = (0, some CErr.invalidEnum) := by
    simp [ObliquityEcliptic, e0, e1, e2, e3, e4, e5]
  have hPe : PerihelionLongitude p = (0, some CErr.invalidEnum) := by
    simp [PerihelionLongitude, e0, e1, e2, e3, e4, e5]
  have hEq : EquationOfCenter jd p = (0, some CErr.invalidEnum) := by
    simp [EquationOfCenter, hM]
  have hTr : TrueAnomaly jd p = (0, some CErr.invalidEnum) := by
    simp [TrueAnomaly, hM]
  have hEc : EclipticLongitude jd p = (0, some CErr.invalidEnum) := by
    simp [EclipticLongitude, hM]
  have hRA : RightAscension jd p = (0, some CErr.invalidEnum) := by
    simp [RightAscension, hEc]
  have hDe : Declination jd p = (0, some CErr.invalidEnum) := by
    simp [Declination, hEc]
  have hSi : SiderealTime jd p lon = (0, some CErr.invalidEnum) := by
    simp [SiderealTime, e0, e1, e2, e3, e4, e5, wrapGt360]
  have hHA : HourAngle jd p lon = (0, some CErr.invalidEnum) := by
    simp [HourAngle, hSi]
  have hAz : Azimuth jd p lat lon = (0, some CErr.invalidEnum) := by
    simp [Azimuth, hDe]
  have hAl : Altitude jd p lat lon = (0, some CErr.invalidEnum) := by
    simp [Altitude, hDe]
  have hT : Transit fuel jd p lon = (0, some CErr.invalidEnum) := by
    simp [Transit, hEc]
  have hSr : Sunrise fuel jd p lat lon = (0, some CErr.invalidEnum) := by
    simp [Sunrise, hDe]
  have hSs : Sunset fuel jd p lat lon = (0, some CErr.invalidEnum) := by
    simp [Sunset, hDe]
  exact ⟨hM, hOb, hPe, hEq, hTr, hEc, hRA, hDe, hSi, hHA, hAz, hAl, hT, hSr, hSs⟩

/-- Witness for C4 at body index 12 with zero arguments and zero fuel. -/
theorem C4_invalid_body_witness :
    MeanAnomaly 0 12 = (0, some CErr.invalidEnum) ∧
    ObliquityEcliptic 12 = (0, some CErr.invalidEnum) ∧
    PerihelionLongitude 12 = (0, some CErr.invalidEnum) ∧
    EquationOfCenter 0 12 = (0, some CErr.invalidEnum) ∧
    TrueAnomaly 0 12 = (0, some CErr.invalidEnum) ∧
    EclipticLongitude 0 12 = (0, some CErr.invalidEnum) ∧
    RightAscension 0 12 = (0, some CErr.invalidEnum) ∧
    Declination 0 12 = (0, some CErr.invalidEnum) ∧
    SiderealTime 0 12 0 = (0, some CErr.invalidEnum) ∧
    HourAngle 0 12 0 = (0, some CErr.invalidEnum) ∧
    Azimuth 0 12 0 0 = (0, some CErr.invalidEnum) ∧
    Altitude 0 12 0 0 = (0, some CErr.invalidEnum) ∧
    Transit 0 0 12 0 = (0, some CErr.invalidEnum) ∧
    Sunrise 0 0 12 0 0 = (0, some CErr.invalidEnum) ∧
    Sunset 0 0 12 0 0 = (0, some CErr.invalidEnum) :=
  C4_invalid_body 12 (Or.inr (by norm_num)) 0 0 0 0

lemma specRepeatSub360_succ (n : ℕ) (x : ℝ) :
    specRepeatSub360 (n + 1) x =
      if x > 360 then specRepeatSub360 n (x - 360) else x := rfl

/-- C8: the integer `n` used in `Transit`'s first estimate is the ceiling
of `n_x` when the fractional part is at least 0.5 and the floor otherwise,
which coincides with standard round half up, `⌊n_x + 1/2⌋`. -/
theorem C8_transit_round_half_up (x : ℝ) :
    ((0.5 : ℝ) ≤ x - ((⌊x⌋ : ℤ) : ℝ) → transitRound x = ((⌈x⌉ : ℤ) : ℝ)) ∧
    (x - ((⌊x⌋ : ℤ) : ℝ) < 0.5 → transitRound x = ((⌊x⌋ : ℤ) : ℝ)) ∧
    transitRound x = ((⌊x + 1 / 2⌋ : ℤ) : ℝ) := by
  have hfl : ((⌊x⌋ : ℤ) : ℝ) ≤ x := Int.floor_le x
  have hfu : x < ((⌊x⌋ : ℤ) : ℝ) + 1 := Int.lt_floor_add_one x
  refine ⟨fun h => by simp only [transitRound]; rw [if_pos h],
    fun h => by simp only [transitRound]; rw [if_neg (not_le.mpr h)], ?_⟩
  by_cases h : x - ((⌊x⌋ : ℤ) : ℝ) ≥ 0.5
  · have hne : ⌈x⌉ = ⌊x⌋ + 1 := by
      rw [Int.ceil_eq_iff]
      constructor
      · push_cast
        linarith
      · push_cast
        linarith
    have hfr : ⌊x + 1 / 2⌋ = ⌊x⌋ + 1 := by
      rw [Int.floor_eq_iff]
      constructor
      · push_cast
        linarith
      · push_cast
        linarith
    simp only [transitRound]
    rw [if_pos h, hne, hfr]
  · have hlt : x - ((⌊x⌋ : ℤ) : ℝ) < 0.5 := not_le.mp h
    have hfr : ⌊x + 1 / 2⌋ = ⌊x⌋ := by
      rw [Int.floor_eq_iff]
      constructor
      · linarith
      · linarith
    simp only [transitRound]
    rw [if_neg h, hfr]

/-- Witness for C8 at `n_x = 3.7` (fractional part 0.7 at least one half). -/
theorem C8_transit_round_half_up_witness :
    transitRound 3.7 = ((⌈(3.7 : ℝ)⌉ : ℤ) : ℝ) ∧
      transitRound 3.7 = ((⌊(3.7 : ℝ) + 1 / 2⌋ : ℤ) : ℝ) := by
  have hf : ⌊(3.7 : ℝ)⌋ = 3 := by
    rw [Int.floor_eq_iff]
    constructor <;> norm_num
  refine ⟨(C8_transit_round_half_up 3.7).1 ?_, (C8_transit_round_half_up 3.7).2.2⟩
  rw [hf]
  norm_num

/-- C7: for every Julian day and valid body, `EclipticLongitude` leaves
`L + C` untouched when it is at most 360 (no adjustment on the
non-positive side), reduces it with one `math.Mod` only when it exceeds
360, and the returned value always lies in (-360, 360]. -/
theorem C7_eclipticLongitude_reduction (jd : ℝ) (p : ℤ) (h0 : 0 ≤ p) (h5 : p ≤ 5) :
    ((MeanAnomaly jd p).1 + (PerihelionLongitude p).1 + 180 + (EquationOfCenter jd p).1 ≤ 360 →
      (EclipticLongitude jd p).1 =
        (MeanAnomaly jd p).1 + (PerihelionLongitude p).1 + 180 + (EquationOfCenter jd p).1) ∧
    (360 < (MeanAnomaly jd p).1 + (PerihelionLongitude p).1 + 180 + (EquationOfCenter jd p).1 →
      (EclipticLongitude jd p).1 =
        goMod ((MeanAnomaly jd p).1 + (PerihelionLongitude p).1 + 180 +
          (EquationOfCenter jd p).1) 360) ∧
    (-360 < (EclipticLongitude jd p).1 ∧ (EclipticLongitude jd p).1 ≤ 360) := by
  have hval := EclipticLongitude_valid jd p h0 h5
  have hM := MeanAnomaly_valid_bounds jd p h0 h5
  have hC := abs_le.mp (EquationOfCenter_abs_le jd p h0 h5)
  have hw := PerihelionLongitude_ge p h0 h5
  rw [hval]
  dsimp only
  refine ⟨?_, ?_, ?_⟩
  · intro h
    simp only [wrapGt360]
    rw [if_neg (not_lt.mpr h)]
  · intro h
    simp only [wrapGt360]
    rw [if_pos h]
  · by_cases h : (MeanAnomaly jd p).1 + (PerihelionLongitude p).1 + 180 +
        (EquationOfCenter jd p).1 > 360
    · simp only [wrapGt360]
      rw [if_pos h]
      have hb := goMod_nonneg_lt ((MeanAnomaly jd p).1 + (PerihelionLongitude p).1 + 180 +
        (EquationOfCenter jd p).1) (by linarith)
      exact ⟨by linarith [hb.1], by linarith [hb.2]⟩
    · simp only [wrapGt360]
      rw [if_neg h]
      exact ⟨by linarith [hM.1, hC.1], not_lt.mp h⟩

/-- Witness for C7 at `jd = 2453097`, `p = 2` (Earth): the range conjunct. -/
theorem C7_eclipticLongitude_reduction_witness :
    -360 < (EclipticLongitude 2453097 2).1 ∧ (EclipticLongitude 2453097 2).1 ≤ 360 :=
  (C7_eclipticLongitude_reduction 2453097 2 (by norm_num) (by norm_num)).2.2

/-- C6 counterexample: at `jd = J2000`, `p = 2`, `lon = -439.853` the raw
sidereal angle is exactly 720; the code's `math.Mod` reduction returns 0,
while the claimed repeated subtraction of 360 (while greater than 360)
stops at 360. -/
theorem C6_counterexample :
    (SiderealTime 2451545 2 (-439.853)).1 ≠
      specRepeatSub360 2 (T0Earth + T1Earth * ((2451545 : ℝ) - J2000) - (-439.853)) := by
  have hth : T0Earth + T1Earth * ((2451545 : ℝ) - J2000) - (-439.853) = 720 := by
    norm_num [T0Earth, T1Earth, J2000]
  have hg : goMod (720 : ℝ) 360 = 0 := by
    have h := goMod_eq_sub 720 2 (by norm_num) (by norm_num) (by norm_num)
    norm_num at h
    exact h
  have hw : wrapGt360 (720 : ℝ) = 0 := by
    simp only [wrapGt360]
    rw [if_pos (by norm_num : (720 : ℝ) > 360), hg]
  have hcode : (SiderealTime 2451545 2 (-439.853)).1 = 0 := by
    have hval := SiderealTime_valid 2451545 2 (-439.853) (by norm_num) (by norm_num)
    have hsel : T0sel 2 + T1sel 2 * ((2451545 : ℝ) - J2000) - (-439.853) = 720 := by
      norm_num [T0sel, T1sel, T0Earth, T1Earth, J2000]
    rw [hval]
    dsimp only
    rw [hsel, hw]
  have hspec : specRepeatSub360 2 (720 : ℝ) = 360 := by
    have h2 : (2 : ℕ) = 1 + 1 := rfl
    have h1 : (1 : ℕ) = 0 + 1 := rfl
    rw [h2, specRepeatSub360_succ, if_pos (by norm_num : (720 : ℝ) > 360)]
    rw [h1, specRepeatSub360_succ, if_neg (by norm_num : ¬((720 : ℝ) - 360 > 360))]
    norm_num
  rw [hcode, hth, hspec]
  norm_num

/-- C6 amended: `SiderealTime` returns the raw angle unchanged when it is
at most 360 (negative values included) and otherwise reduces it with a
single `math.Mod` into [0, 360); this agrees with repeated subtraction of
360 except when the angle is an exact multiple of 360, where the result is
0 rather than 360. -/
theorem C6_siderealTime_mod_reduction (jd : ℝ) (p : ℤ) (lon : ℝ)
    (h0 : 0 ≤ p) (h5 : p ≤ 5) :
    (T0sel p + T1sel p * (jd - J2000) - lon ≤ 360 →
      (SiderealTime jd p lon).1 = T0sel p + T1sel p * (jd - J2000) - lon) ∧
    (360 < T0sel p + T1sel p * (jd - J2000) - lon →
      (SiderealTime jd p lon).1 = goMod (T0sel p + T1sel p * (jd - J2000) - lon) 360 ∧
        0 ≤ (SiderealTime jd p lon).1 ∧ (SiderealTime jd p lon).1 < 360) ∧
    (SiderealTime jd p lon).2 = none := by
  have hval := SiderealTime_valid jd p lon h0 h5
  rw [hval]
  dsimp only
  refine ⟨?_, ?_, rfl⟩
  · intro h
    simp only [wrapGt360]
    rw [if_neg (not_lt.mpr h)]
  · intro h
    simp only [wrapGt360]
    rw [if_pos h]
    have hb := goMod_nonneg_lt (T0sel p + T1sel p * (jd - J2000) - lon) (by linarith)
    exact ⟨rfl, hb.1, hb.2⟩

/-- Witness for the amended C6 at `jd = J2000`, `p = 2`, `lon = 0`: the raw
angle 280.147 is at most 360 and is returned untouched. -/
theorem C6_siderealTime_mod_reduction_witness :
    (SiderealTime 2451545 2 0).1 = T0sel 2 + T1sel 2 * ((2451545 : ℝ) - J2000) - 0 :=
  (C6_siderealTime_mod_reduction 2451545 2 0 (by norm_num) (by norm_num)).1
    (by norm_num [T0sel, T1sel, T0Earth, T1Earth, J2000])

/-- C5 counterexample: at `jd = J2000`, `p = 2`, `lon = 1500` the hour
angle returned by `HourAngle` is below -1039, and `normalize90` (a single
shift by 360) leaves it below -180, outside (-180, 180]. -/
theorem C5_counterexample : normalize90 (HourAngle 2451545 2 1500).1 < -180 := by
  obtain ⟨hral, hrau, hran⟩ := RightAscension_valid_bounds 2451545 2 (by norm_num) (by norm_num)
  have hst : SiderealTime 2451545 2 1500 = (-1219.853, none) := by
    have hval := SiderealTime_valid 2451545 2 1500 (by norm_num) (by norm_num)
    have hsel : T0sel 2 + T1sel 2 * ((2451545 : ℝ) - J2000) - 1500 = -1219.853 := by
      norm_num [T0sel, T1sel, T0Earth, T1Earth, J2000]
    have hwr : wrapGt360 (-1219.853 : ℝ) = -1219.853 := by
      simp only [wrapGt360]
      rw [if_neg (by norm_num)]
    rw [hval, hsel, hwr]
  rcases hx : RightAscension 2451545 2 with ⟨av, ae⟩
  rw [hx] at hral hrau hran
  dsimp only at hral hrau hran
  subst hran
  have hH : HourAngle 2451545 2 1500 = (-1219.853 - av, none) := by
    simp [HourAngle, hst, hx]
  rw [hH]
  dsimp only
  have h1 : (-1219.853 : ℝ) - av < -180 := by linarith
  have h2 : ¬((-1219.853 : ℝ) - av > 180) := by linarith
  simp only [normalize90]
  rw [if_neg h2, if_pos h1]
  linarith

/-- C5 amended: the single ±360 shift of `normalize90` yields a value in
[-180, 180] whenever the hour angle lies in [-540, 540], and a value in
(-180, 180] when moreover the hour angle is strictly above -540 and is not
exactly -180; for hour angles outside [-540, 540] (which `HourAngle` can
return) the result remains outside (-180, 180]. -/
theorem C5_normalize90_range (H : ℝ) (hl : -540 ≤ H) (hu : H ≤ 540) :
    (-180 ≤ normalize90 H ∧ normalize90 H ≤ 180) ∧
      (-540 < H → H ≠ -180 → -180 < normalize90 H ∧ normalize90 H ≤ 180) := by
  simp only [normalize90]
  split_ifs with h1 h2
  · exact ⟨⟨by linarith, by linarith⟩, fun h3 h4 => ⟨by linarith, by linarith⟩⟩
  · exact ⟨⟨by linarith, by linarith⟩, fun h3 h4 => ⟨by linarith, by linarith⟩⟩
  · refine ⟨⟨by linarith [not_lt.mp h2], by linarith [not_lt.mp h1]⟩,
      fun h3 h4 => ⟨?_, by linarith [not_lt.mp h1]⟩⟩
    exact lt_of_le_of_ne (not_lt.mp h2) (Ne.symm h4)

/-- Witness for the amended C5 at `H = 200`. -/
theorem C5_normalize90_range_witness :
    -180 < normalize90 200 ∧ normalize90 200 ≤ 180 :=
  (C5_normalize90_range 200 (by norm_num) (by norm_num)).2 (by norm_num) (by norm_num)

/-- C3: for every valid body, latitude and declination argument, the
horizon hour-angle computed by both `Sunrise` and `Sunset` is exactly
`acos(((sin(h0) - sin(lat)·sin(d)) / cos(lat)) · cos(d)) · DEG`: the
division binds only to `cos(lat)` and the `cos(d)` factor multiplies the
quotient. -/
theorem C3_horizon_hour_angle (p : ℤ) (lat d : ℝ) (h0 : 0 ≤ p) (h5 : p ≤ 5) :
    sunriseParams p lat d =
      some (specHorizonHA (h_0sel p) lat d, 360 / (T1sel p - M1sel p)) ∧
    sunsetParams p lat d =
      some (specHorizonHA (h_0sel p) lat d, 360 / (T1sel p - M1sel p)) := by
  interval_cases p <;>
    simp [sunriseParams, sunsetParams, specHorizonHA, h_0sel, T1sel, M1sel]

/-- Witness for C3 at `p = 2`, `lat = 52`, `d = 5`. -/
theorem C3_horizon_hour_angle_witness :
    sunriseParams 2 52 5 = some (specHorizonHA (h_0sel 2) 52 5, 360 / (T1sel 2 - M1sel 2)) ∧
    sunsetParams 2 52 5 = some (specHorizonHA (h_0sel 2) 52 5, 360 / (T1sel 2 - M1sel 2)) :=
  C3_horizon_hour_angle 2 52 5 (by norm_num) (by norm_num)

/-- C1 counterexample: at `jd = 2453097`, `p = 2` (Earth) the ecliptic
longitude lies strictly between 8 and 13 degrees, so the product
`sin(λ·RAD)·sin(ε·RAD)` is strictly positive; the arctangent the code
applies to it is then strictly smaller than the arcsine the claim
prescribes, hence `Declination` differs from the claimed asin value. -/
theorem C1_counterexample :
    (Declination 2453097 2).1 ≠
      Real.arcsin (Real.sin ((EclipticLongitude 2453097 2).1 * RAD) *
        Real.sin ((ObliquityEcliptic 2).1 * RAD)) * DEG := by
  have hpi := Real.pi_pos
  have hMval : (MeanAnomaly 2453097 2).1 = 87.18073456 := by
    have hx : M0Earth + M1Earth * ((2453097 : ℝ) - J2000) = 1887.18073456 := by
      norm_num [M0Earth, M1Earth, J2000]
    have hg : goMod (1887.18073456 : ℝ) 360 = 87.18073456 := by
      rw [goMod_eq_sub 1887.18073456 5 (by norm_num) (by norm_num) (by norm_num)]
      norm_num
    have hun : (MeanAnomaly 2453097 2).1 =
        goMod (M0Earth + M1Earth * ((2453097 : ℝ) - J2000)) 360 := by
      simp [MeanAnomaly]
    rw [hun, hx, hg]
  have hCb := abs_le.mp (EquationOfCenter_earth_abs_le 2453097)
  have hPval : (PerihelionLongitude 2).1 = 102.9373 := by
    norm_num [PerihelionLongitude, PEarth]
  have hl : 8 < (EclipticLongitude 2453097 2).1 ∧ (EclipticLongitude 2453097 2).1 < 13 := by
    have hEc := EclipticLongitude_valid 2453097 2 (by norm_num) (by norm_num)
    rw [hEc]
    dsimp only
    have hXl : 360 < (MeanAnomaly 2453097 2).1 + (PerihelionLongitude 2).1 + 180 +
        (EquationOfCenter 2453097 2).1 := by
      rw [hMval, hPval]
      linarith [hCb.1]
    have hXu : (MeanAnomaly 2453097 2).1 + (PerihelionLongitude 2).1 + 180 +
        (EquationOfCenter 2453097 2).1 < 373 := by
      rw [hMval, hPval]
      linarith [hCb.2]
    simp only [wrapGt360]
    rw [if_pos hXl]
    have hg := goMod_eq_sub ((MeanAnomaly 2453097 2).1 + (PerihelionLongitude 2).1 + 180 +
        (EquationOfCenter 2453097 2).1) 1 (by linarith)
      (by rw [le_div_iff₀ (by norm_num : (0:ℝ) < 360)]; push_cast; linarith)
      (by rw [div_lt_iff₀ (by norm_num : (0:ℝ) < 360)]; push_cast; linarith)
    rw [hg]
    push_cast
    constructor <;> linarith
  have hob : (ObliquityEcliptic 2).1 = EEarth := by
    norm_num [ObliquityEcliptic]
  have hs1 : 0 < Real.sin ((EclipticLongitude 2453097 2).1 * RAD) := by
    apply Real.sin_pos_of_pos_of_lt_pi
    · simp only [RAD]
      nlinarith [hl.1, mul_pos (show (0:ℝ) < (EclipticLongitude 2453097 2).1 by linarith [hl.1]) hpi]
    · simp only [RAD]
      nlinarith [mul_pos hpi (show (0:ℝ) < 180 - (EclipticLongitude 2453097 2).1 by linarith [hl.2])]
  have hs2 : 0 < Real.sin (EEarth * RAD) := by
    apply Real.sin_pos_of_pos_of_lt_pi
    · simp only [RAD, EEarth]
      positivity
    · simp only [RAD, EEarth]
      nlinarith [mul_pos hpi (show (0:ℝ) < 180 - 23.4393 by norm_num)]
  have hs1le := Real.sin_le_one ((EclipticLongitude 2453097 2).1 * RAD)
  have hs2le := Real.sin_le_one (EEarth * RAD)
  have hxpos : 0 < Real.sin ((EclipticLongitude 2453097 2).1 * RAD) *
      Real.sin (EEarth * RAD) := mul_pos hs1 hs2
  have hxle : Real.sin ((EclipticLongitude 2453097 2).1 * RAD) *
      Real.sin (EEarth * RAD) ≤ 1 := by nlinarith
  have hkey : ∀ x : ℝ, 0 < x → x ≤ 1 → Real.arctan x < Real.arcsin x := by
    intro x hx0 hx1
    have hsq : 1 < Real.sqrt (1 + x ^ 2) := by
      have h1 : Real.sqrt 1 < Real.sqrt (1 + x ^ 2) :=
        Real.sqrt_lt_sqrt (by norm_num) (by nlinarith)
      simpa using h1
    have hdiv : x / Real.sqrt (1 + x ^ 2) < x := div_lt_self hx0 hsq
    have hdivpos : 0 ≤ x / Real.sqrt (1 + x ^ 2) := by positivity
    have hmem1 : x / Real.sqrt (1 + x ^ 2) ∈ Set.Icc (-1 : ℝ) 1 :=
      Set.mem_Icc.mpr ⟨by linarith, by linarith⟩
    have hmem2 : x ∈ Set.Icc (-1 : ℝ) 1 := Set.mem_Icc.mpr ⟨by linarith, hx1⟩
    have harcs := Real.strictMonoOn_arcsin hmem1 hmem2 hdiv
    rw [Real.arctan_eq_arcsin]
    exact harcs
  have hlt := hkey _ hxpos hxle
  have hfin : Real.arctan (Real.sin ((EclipticLongitude 2453097 2).1 * RAD) *
        Real.sin (EEarth * RAD)) * DEG <
      Real.arcsin (Real.sin ((EclipticLongitude 2453097 2).1 * RAD) *
        Real.sin (EEarth * RAD)) * DEG :=
    mul_lt_mul_of_pos_right hlt DEG_pos
  have hdec := Declination_valid 2453097 2 (by norm_num) (by norm_num)
  rw [hdec]
  dsimp only
  rw [hob]
  exact ne_of_lt hfin

/-- C1 amended: for every Julian day and valid body, `Declination` applies
the ARCTANGENT (not the arcsine) to `sin(λ·RAD)·sin(ε·RAD)` and scales by
`DEG`; the result lies strictly inside (-90, 90) and carries no error. -/
theorem C1_declination_uses_atan (jd : ℝ) (p : ℤ) (h0 : 0 ≤ p) (h5 : p ≤ 5) :
    (Declination jd p).1 =
      Real.arctan (Real.sin ((EclipticLongitude jd p).1 * RAD) *
        Real.sin ((ObliquityEcliptic p).1 * RAD)) * DEG ∧
    (Declination jd p).2 = none ∧
    (-90 < (Declination jd p).1 ∧ (Declination jd p).1 < 90) := by
  have h := Declination_valid jd p h0 h5
  rw [h]
  dsimp only
  exact ⟨rfl, rfl, arctan_DEG_bounds _⟩

/-- Witness for the amended C1 at `jd = 2453097`, `p = 2`. -/
theorem C1_declination_uses_atan_witness :
    (Declination 2453097 2).1 =
      Real.arctan (Real.sin ((EclipticLongitude 2453097 2).1 * RAD) *
        Real.sin ((ObliquityEcliptic 2).1 * RAD)) * DEG ∧
    (Declination 2453097 2).2 = none ∧
    (-90 < (Declination 2453097 2).1 ∧ (Declination 2453097 2).1 < 90) :=
  C1_declination_uses_atan 2453097 2 (by norm_num) (by norm_num)

end Celestia

end
